import Mathlib

/-!
Verification of the FaturaScan validation/normalization core.

Shallow embedding of:
  - src/src/ai/flows/validate-extracted-data.ts  (validateExtractedDataFlow)
  - src/src/ai/flows/extract-invoice-data.ts     (item normalization)
  - src/src/actions/invoiceActions.ts            (processInvoiceUpload, saveInvoice)

Modelling conventions: JavaScript numbers are modelled as rationals (the
claims only compare them, never round them); JavaScript Date values are
modelled as integer timestamps, with an unparseable date modelled as
Option.none (NaN compares false on both sides, exactly as the code's
two comparisons then evaluate); null and undefined are both Option.none;
string length is codepoint length (all strings involved are ASCII).
External calls (the AI prompt, Date parsing, the current clock) are
parameters of the embedded functions.
-/

namespace FaturaScan

/-- The validation-time clock: `now` is the timestamp of `new Date()`, and
`twoYearsAgo` the timestamp obtained by `setFullYear(getFullYear() - 2)`
on a copy of it. -/
structure Clock where
  now : Int
  twoYearsAgo : Int
deriving Repr, DecidableEq

/-- Input of validateExtractedData: the three canonical fields. -/
structure ValidateInput where
  date : String
  amount : ℚ
  vendor : String
deriving Repr, DecidableEq

/-- The validationResult object of the flow's output schema. -/
structure ValidationResult where
  isDateValid : Bool
  isAmountValid : Bool
  isVendorValid : Bool
  suspicious : Bool
  reasons : List String
deriving Repr, DecidableEq

/-- The full output of validateExtractedDataFlow. -/
structure ValidateOutput where
  validationResult : ValidationResult
  summary : String
deriving Repr, DecidableEq

/-- The LLM's (possibly partially populated) validationResult, as the code
defensively treats it: every field may be absent. -/
structure AIValidationResult where
  isDateValid : Option Bool
  isAmountValid : Option Bool
  isVendorValid : Option Bool
  suspicious : Option Bool
  reasons : Option (List String)
deriving Repr, DecidableEq

/-- The LLM's (possibly partially populated) output object. -/
structure AIOutput where
  validationResult : Option AIValidationResult
  summary : Option String
deriving Repr, DecidableEq

/-- JavaScript Array.prototype.join with the given separator. -/
def jsJoin (sep : String) : List String → String
  | [] => ""
  | [s] => s
  | s :: rest => s ++ sep ++ jsJoin sep rest

def dateInvalidMsg : String :=
  "The date is invalid (either in the future or too far in the past)."

def amountInvalidMsg : String :=
  "The amount is invalid (either negative or unreasonably large)."

def vendorInvalidMsg : String :=
  "The vendor name is invalid (too short)."

/-- The summary string built by the flow from a suspicious flag and a
reason list (the two branches of the template literal). -/
def mkSummary (suspicious : Bool) (reasons : List String) : String :=
  if suspicious then
    "The extracted data is suspicious. Reasons: " ++ jsJoin ", " reasons
  else
    "The extracted data appears to be valid."

/-- Deterministic date rule: `inputDate <= currentDate && inputDate >= twoYearsAgo`,
with an unparseable date (NaN) failing both comparisons. -/
def detIsDateValid (parse : String → Option Int) (clock : Clock) (d : String) : Bool :=
  match parse d with
  | none => false
  | some t => decide (t ≤ clock.now) && decide (clock.twoYearsAgo ≤ t)

/-- Deterministic amount rule: `input.amount > 0 && input.amount < 1000000`. -/
def detIsAmountValid (a : ℚ) : Bool :=
  decide (0 < a) && decide (a < 1000000)

/-- Deterministic vendor rule: `input.vendor.length > 2`. -/
def detIsVendorValid (v : String) : Bool :=
  decide (2 < v.length)

/-- The rule-based verdict the flow computes before consulting the LLM's
output: the three flags, the suspicious disjunction, and the reasons
pushed in the fixed order date, amount, vendor. -/
def detVerdict (parse : String → Option Int) (clock : Clock)
    (input : ValidateInput) : ValidationResult :=
  let isDateValid := detIsDateValid parse clock input.date
  let isAmountValid := detIsAmountValid input.amount
  let isVendorValid := detIsVendorValid input.vendor
  { isDateValid := isDateValid
    isAmountValid := isAmountValid
    isVendorValid := isVendorValid
    suspicious := !isDateValid || !isAmountValid || !isVendorValid
    reasons :=
      (if isDateValid then [] else [dateInvalidMsg])
        ++ (if isAmountValid then [] else [amountInvalidMsg])
        ++ (if isVendorValid then [] else [vendorInvalidMsg]) }

/-- validateExtractedDataFlow of src/src/ai/flows/validate-extracted-data.ts:
computes the deterministic verdict, then overlays the LLM output field by
field (`!== undefined` checks for the four booleans, a truthy-length check
for reasons, and `output?.summary || ...` for the summary, whose fallback
is built from the merged verdict). -/
def validateExtractedDataFlow (parse : String → Option Int) (clock : Clock)
    (input : ValidateInput) (output : Option AIOutput) : ValidateOutput :=
  let det := detVerdict parse clock input
  let finalVR : ValidationResult :=
    match output with
    | some o =>
      match o.validationResult with
      | some avr =>
        { isDateValid := avr.isDateValid.getD det.isDateValid
          isAmountValid := avr.isAmountValid.getD det.isAmountValid
          isVendorValid := avr.isVendorValid.getD det.isVendorValid
          suspicious := avr.suspicious.getD det.suspicious
          reasons :=
            match avr.reasons with
            | some rs => if rs.isEmpty then det.reasons else rs
            | none => det.reasons }
      | none => det
    | none => det
  let finalSummary : String :=
    match output.bind (fun o => o.summary) with
    | some s =>
      if s = "" then mkSummary finalVR.suspicious finalVR.reasons else s
    | none => mkSummary finalVR.suspicious finalVR.reasons
  ⟨finalVR, finalSummary⟩

/-- The LLM validationResult reached through the optional chain
`output?.validationResult`. -/
def aiVR (output : Option AIOutput) : Option AIValidationResult :=
  output.bind (fun o => o.validationResult)

/-- Modelled from the spec's merge policy, for comparison with the code:
the summary field, like every other field, is taken from the AI output
when explicitly present (not null/undefined), otherwise from the
deterministic verdict. -/
def specPreferredSummary (output : Option AIOutput) (detSummary : String) : String :=
  (output.bind (fun o => o.summary)).getD detSummary

/-- JavaScript String.prototype.trim (both ends, whitespace). -/
def jsTrim (s : String) : String :=
  ⟨(((s.data.dropWhile Char.isWhitespace).reverse.dropWhile Char.isWhitespace).reverse)⟩

/-- A fixed concrete parser for witnesses: recognises one date string. -/
def parse0 : String → Option Int :=
  fun s => if s = "2024-06-01" then some 100 else none

/-- A fixed concrete clock for witnesses. -/
def clock0 : Clock := ⟨1000, -1000⟩

/-- A line item as the extraction LLM may return it: every field optional
(null and undefined both collapse to none). -/
structure RawInvoiceItem where
  description : Option String
  quantity : Option ℚ
  unitPrice : Option ℚ
  totalPrice : Option ℚ
deriving Repr, DecidableEq

/-- A line item after the flow's normalization map. -/
structure InvoiceItem where
  description : Option String
  quantity : ℚ
  unitPrice : Option ℚ
  totalPrice : Option ℚ
deriving Repr, DecidableEq

/-- JavaScript truthiness of an optional string: present and non-empty. -/
def jsTruthyStr : Option String → Bool
  | none => false
  | some s => !(s = "")

/-- JavaScript truthiness of an optional number: present and non-zero. -/
def jsTruthyNum : Option ℚ → Bool
  | none => false
  | some q => !(q = 0)

/-- The per-item map of extractInvoiceDataFlow: `description || undefined`
(an empty description becomes undefined), quantity defaulted to 1 when
null or undefined, unitPrice/totalPrice passed through `Number(...)`
(identity on numbers) when present. -/
def normalizeItem (item : RawInvoiceItem) : InvoiceItem :=
  { description := if jsTruthyStr item.description then item.description else none
    quantity := item.quantity.getD 1
    unitPrice := item.unitPrice
    totalPrice := item.totalPrice }

/-- The flow's filter predicate `item.description || item.totalPrice`,
evaluated on the mapped item: JavaScript truthiness on both sides. -/
def keepItem (item : InvoiceItem) : Bool :=
  jsTruthyStr item.description || jsTruthyNum item.totalPrice

/-- `output?.items?.map(...).filter(...) || []` of extractInvoiceDataFlow. -/
def normalizeItems : Option (List RawInvoiceItem) → List InvoiceItem
  | none => []
  | some items => (items.map normalizeItem).filter keepItem

/-- The extraction result as processInvoiceUpload receives it (fields the
LLM may have omitted are options; items are already normalized by the
extraction flow). -/
structure ExtractedData where
  date : Option String
  amount : Option ℚ
  vendor : Option String
  invoiceNumber : Option String
  taxAmount : Option ℚ
  items : List InvoiceItem
deriving Repr, DecidableEq

/-- `!extractedData.date` in processInvoiceUpload: absent or empty string. -/
def dateMissing (ed : ExtractedData) : Bool :=
  !(jsTruthyStr ed.date)

/-- `extractedData.amount == null`: loose equality with null matches only
null and undefined (0 is kept). -/
def amountMissing (ed : ExtractedData) : Bool :=
  ed.amount.isNone

/-- `!extractedData.vendor`: absent or empty string. -/
def vendorMissing (ed : ExtractedData) : Bool :=
  !(jsTruthyStr ed.vendor)

def coreFieldsMsg : String :=
  "AI could not extract all required core fields (Date, Amount, Vendor). "

/-- The template literal enumerating the missing core fields, before the
trailing `.slice(0, -2)`. -/
def missingListMsg (ed : ExtractedData) : String :=
  "Missing: "
    ++ (if dateMissing ed then "Date, " else "")
    ++ (if amountMissing ed then "Amount, " else "")
    ++ (if vendorMissing ed then "Vendor" else "")

/-- JavaScript `s.slice(0, -2)`: the string without its last two
characters (empty when shorter than two). -/
def jsSliceDropTwo (s : String) : String :=
  ⟨s.data.take (s.data.length - 2)⟩

/-- JavaScript `s.startsWith(p)`. -/
def jsStartsWith (s p : String) : Bool :=
  p.data.isPrefixOf s.data

/-- JavaScript `e.message || fallback`: the fallback replaces an absent or
empty message. -/
def jsOrElse (s fallback : String) : String :=
  if s = "" then fallback else s

def aiFailureMsg : String :=
  "An unexpected error occurred during AI processing."

/-- The return shape of processInvoiceUpload; error none means the error
key is absent from the returned object. -/
structure ProcessResult where
  extractedData : Option ExtractedData
  validationResult : Option ValidateOutput
  error : Option String
deriving Repr, DecidableEq

/-- processInvoiceUpload of src/src/actions/invoiceActions.ts. The zod
check on the form field, the extraction call, the missing-core-fields
branch (with its error-message assembly and `.slice(0, -2)` trim), the
validation call and the catch-all are all modelled; the two external AI
calls are parameters returning either a thrown error message or their
result. -/
def processInvoiceUpload (parse : String → Option Int) (clock : Clock)
    (extractCall : String → Except String (Option ExtractedData))
    (aiValidate : ValidateInput → Except String (Option AIOutput))
    (photoDataUri : Option String) : ProcessResult :=
  match photoDataUri with
  | none => ⟨none, none, some "Expected string, received null"⟩
  | some uri =>
    if jsStartsWith uri "data:image/" then
      match extractCall uri with
      | .error e => ⟨none, none, some (jsOrElse e aiFailureMsg)⟩
      | .ok none =>
        ⟨none, none, some (coreFieldsMsg ++ "Please check the image or try again.")⟩
      | .ok (some ed) =>
        if dateMissing ed || amountMissing ed || vendorMissing ed then
          ⟨some ed, none, some (coreFieldsMsg ++ jsSliceDropTwo (missingListMsg ed))⟩
        else
          let vinput : ValidateInput := ⟨ed.date.getD "", ed.amount.getD 0, ed.vendor.getD ""⟩
          match aiValidate vinput with
          | .error e => ⟨none, none, some (jsOrElse e aiFailureMsg)⟩
          | .ok aiOut =>
            ⟨some ed, some (validateExtractedDataFlow parse clock vinput aiOut), none⟩
    else ⟨none, none, some "Invalid image data URI"⟩

/-- A line item as the save-time zod schema requires it (all four fields
mandatory numbers/string). -/
structure SavedInvoiceItem where
  description : String
  quantity : ℚ
  unitPrice : ℚ
  totalPrice : ℚ
deriving Repr, DecidableEq

/-- The invoice record passed to saveInvoice. The userId field models a
stray runtime property on the input object (the TypeScript type omits
it, but a spoofed caller can still put one there; the spread copies it
and the explicit `userId:` key after the spread overwrites it). -/
structure SaveRecord where
  date : String
  amount : ℚ
  vendor : String
  invoiceNumber : Option String
  taxAmount : Option ℚ
  items : Option (List SavedInvoiceItem)
  category : String
  validationSummary : String
  isDateValid : Bool
  isAmountValid : Bool
  isVendorValid : Bool
  isSuspicious : Bool
  suspiciousReasons : List String
  imageFileName : Option String
  userId : Option String
deriving Repr, DecidableEq

/-- The saveInvoiceSchema checks that can fail in the typed model, in zod
field order (vendor before category), each as `path: message`. The enum
message stands in for the library-generated wording. -/
def schemaIssues (r : SaveRecord) : List String :=
  (if 1 ≤ r.vendor.length then [] else ["vendor: Vendor name is required"])
    ++ (if r.category = "gelir" ∨ r.category = "gider" then []
        else ["category: Invalid enum value. Expected gelir or gider, received " ++ r.category])

/-- The error string saveInvoice builds from the zod issues, or none when
the schema check passes. -/
def schemaErrorMsg (r : SaveRecord) : Option String :=
  match schemaIssues r with
  | [] => none
  | issues => some (jsJoin ", " issues)

/-- A document in the invoices collection: the saved record (with its
userId key as written), the two server timestamps and the generated id. -/
structure StoredInvoice where
  record : SaveRecord
  createdAt : Int
  updatedAt : Int
  id : String
deriving Repr, DecidableEq

/-- The document store: the invoices collection, the id generator state
and the server clock that resolves serverTimestamp() sentinels. -/
structure Store where
  invoices : List StoredInvoice
  nextId : Nat
  serverTime : Int
deriving Repr, DecidableEq

def genId (n : Nat) : String := "doc" ++ Nat.repr n

/-- The result object of saveInvoice. -/
structure SaveResult where
  success : Bool
  invoiceId : Option String
  error : Option String
deriving Repr, DecidableEq

def missingIdentityMsg : String :=
  "User ID is missing. Cannot save invoice. (SA-NoUIDParam)"

def dbUnavailableMsg : String :=
  "Firebase database service is not configured. Please contact support. (SA-DBObj)"

/-- saveInvoice of src/src/actions/invoiceActions.ts: the empty-userId
guard, the db-availability guard, the zod schema check, then addDoc with
`...invoiceData, userId, createdAt/updatedAt: serverTimestamp()` — the
spread's stray userId key is overwritten by the explicit one, and both
timestamp sentinels resolve to the same server instant. -/
def saveInvoice (dbAvailable : Bool) (store : Store)
    (invoiceData : SaveRecord) (userId : String) : SaveResult × Store :=
  if userId = "" then
    (⟨false, none, some missingIdentityMsg⟩, store)
  else if !dbAvailable then
    (⟨false, none, some dbUnavailableMsg⟩, store)
  else
    match schemaErrorMsg invoiceData with
    | some e => (⟨false, none, some e⟩, store)
    | none =>
      let doc : StoredInvoice :=
        ⟨{ invoiceData with userId := some userId },
          store.serverTime, store.serverTime, genId store.nextId⟩
      (⟨true, some doc.id, none⟩,
        ⟨store.invoices ++ [doc], store.nextId + 1, store.serverTime⟩)

/-- The names that actually appear in the enumeration part of the
missing-core-fields error, in the code's fixed order; the trailing
`.slice(0, -2)` cuts the final two characters, which truncates a
trailing "Vendor" to "Vend". -/
def missingNames (ed : ExtractedData) : List String :=
  (if dateMissing ed then ["Date"] else [])
    ++ (if amountMissing ed then ["Amount"] else [])
    ++ (if vendorMissing ed then ["Vend"] else [])

/-- Whether pat occurs as a contiguous substring of s. -/
def strOccurs (s pat : String) : Bool :=
  (List.range (s.data.length + 1)).any (fun i => pat.data.isPrefixOf (s.data.drop i))

/-- Concrete validation input whose amount fails the deterministic rule. -/
def inpBadAmount : ValidateInput := ⟨"2024-06-01", -5, "Acme Corp"⟩

/-- Concrete LLM output that supplies only suspicious=false and no summary. -/
def aiSusOverride : AIOutput := ⟨some ⟨none, none, none, some false, none⟩, none⟩

/-- Concrete extraction result with the amount absent (spec scenario 7). -/
def edMissingAmount : ExtractedData :=
  ⟨some "2024-06-01", none, some "Acme Corp", none, none, []⟩

/-- Concrete extraction call returning edMissingAmount. -/
def extractFix : String → Except String (Option ExtractedData) :=
  fun _ => Except.ok (some edMissingAmount)

/-- Concrete AI validation call whose prompt returns no output. -/
def aiValidateNone : ValidateInput → Except String (Option AIOutput) :=
  fun _ => Except.ok none

/-- Concrete invoice record passing the save-time schema, carrying a stray
userId runtime property to exercise the spoofing defense. -/
def rec0 : SaveRecord :=
  { date := "2024-06-01", amount := 150, vendor := "Acme Corp"
    invoiceNumber := none, taxAmount := none, items := none
    category := "gider", validationSummary := "ok"
    isDateValid := true, isAmountValid := true, isVendorValid := true
    isSuspicious := false, suspiciousReasons := [], imageFileName := none
    userId := some "spoofed-user" }

/-- Concrete empty store. -/
def store0 : Store := ⟨[], 0, 1718409600⟩

/-- With no LLM output the flow's verdict is the deterministic one. -/
theorem flow_none_validationResult (parse : String → Option Int) (clock : Clock)
    (inp : ValidateInput) :
    (validateExtractedDataFlow parse clock inp none).validationResult
      = detVerdict parse clock inp := rfl

/-- With no LLM output the flow's summary is built from the deterministic
verdict. -/
theorem flow_none_summary (parse : String → Option Int) (clock : Clock)
    (inp : ValidateInput) :
    (validateExtractedDataFlow parse clock inp none).summary
      = mkSummary (detVerdict parse clock inp).suspicious
          (detVerdict parse clock inp).reasons := rfl

/-- C5: the deterministic validator accepts an amount exactly when it is
strictly positive and strictly below 1,000,000. -/
theorem amountRule_boundsIff (parse : String → Option Int) (clock : Clock)
    (inp : ValidateInput) :
    ((validateExtractedDataFlow parse clock inp none).validationResult.isAmountValid = true
      ↔ (0 < inp.amount ∧ inp.amount < 1000000)) := by
  rw [flow_none_validationResult]
  simp [detVerdict, detIsAmountValid]

/-- C4: the deterministic validator accepts a date exactly when it parses
to a timestamp lying in the inclusive window from two years ago up to
now; an unparseable date is rejected. -/
theorem dateRule_windowIff (parse : String → Option Int) (clock : Clock)
    (inp : ValidateInput) :
    ((validateExtractedDataFlow parse clock inp none).validationResult.isDateValid = true
      ↔ ∃ t, parse inp.date = some t ∧ clock.twoYearsAgo ≤ t ∧ t ≤ clock.now)
    ∧ (parse inp.date = none →
        (validateExtractedDataFlow parse clock inp none).validationResult.isDateValid = false) := by
  rw [flow_none_validationResult]
  constructor
  · cases hp : parse inp.date with
    | none => simp [detVerdict, detIsDateValid, hp]
    | some t =>
      simp only [detVerdict, detIsDateValid, hp, Bool.and_eq_true, decide_eq_true_eq]
      constructor
      · rintro ⟨h1, h2⟩
        exact ⟨t, rfl, h2, h1⟩
      · rintro ⟨t', ht', h2, h1⟩
        cases Option.some.inj ht'
        exact ⟨h1, h2⟩
  · intro hp
    simp [detVerdict, detIsDateValid, hp]

/-- C3 (amended): the deterministic validator accepts a vendor exactly
when the raw, untrimmed string is longer than two characters. -/
theorem vendorRule_lengthNoTrim (parse : String → Option Int) (clock : Clock)
    (inp : ValidateInput) :
    ((validateExtractedDataFlow parse clock inp none).validationResult.isVendorValid = true
      ↔ 2 < inp.vendor.length) := by
  rw [flow_none_validationResult]
  simp [detVerdict, detIsVendorValid]

/-- C3 counterexample: the vendor string consisting of a single letter
between spaces has untrimmed length 3, so the code marks it valid, while
its trimmed length is 1, so the claimed trim-based rule would reject it. -/
theorem vendorRule_trimCex :
    (validateExtractedDataFlow parse0 clock0 ⟨"2024-06-01", 100, " a "⟩
        none).validationResult.isVendorValid = true
    ∧ (jsTrim " a ").length = 1 := by
  exact ⟨by decide, by decide⟩

/-- C6: in the deterministic verdict, suspicious holds exactly when one of
the three flags is false, the reason list has exactly the fixed entry of
each failing rule in the order date, amount, vendor, and the summary is
the suspicious sentence with the comma-joined reasons, or the fixed
valid sentence. -/
theorem detVerdict_suspiciousReasonsSummary (parse : String → Option Int)
    (clock : Clock) (inp : ValidateInput) :
    ((validateExtractedDataFlow parse clock inp none).validationResult.suspicious = true
      ↔ ¬((validateExtractedDataFlow parse clock inp none).validationResult.isDateValid = true
          ∧ (validateExtractedDataFlow parse clock inp none).validationResult.isAmountValid = true
          ∧ (validateExtractedDataFlow parse clock inp none).validationResult.isVendorValid = true))
    ∧ (validateExtractedDataFlow parse clock inp none).validationResult.reasons
        = (if (validateExtractedDataFlow parse clock inp none).validationResult.isDateValid
            then [] else [dateInvalidMsg])
          ++ (if (validateExtractedDataFlow parse clock inp none).validationResult.isAmountValid
              then [] else [amountInvalidMsg])
          ++ (if (validateExtractedDataFlow parse clock inp none).validationResult.isVendorValid
              then [] else [vendorInvalidMsg])
    ∧ (validateExtractedDataFlow parse clock inp none).summary
        = (if (validateExtractedDataFlow parse clock inp none).validationResult.suspicious
            then "The extracted data is suspicious. Reasons: "
              ++ jsJoin ", " (validateExtractedDataFlow parse clock inp none).validationResult.reasons
            else "The extracted data appears to be valid.") := by
  rw [flow_none_validationResult, flow_none_summary]
  simp only [detVerdict, mkSummary]
  cases detIsDateValid parse clock inp.date
    <;> cases detIsAmountValid inp.amount
    <;> cases detIsVendorValid inp.vendor
    <;> simp

/-- C2 (amended): the flow's merged verdict takes each of the four boolean
fields from the LLM output when present, and the reasons when present
and non-empty, falling back to the deterministic value; the summary is
the LLM's summary when present and non-empty, and otherwise the fixed
sentence rebuilt from the merged (not the deterministic) verdict. -/
theorem validateFlow_mergeCharacterization (parse : String → Option Int)
    (clock : Clock) (inp : ValidateInput) (out : Option AIOutput) :
    (validateExtractedDataFlow parse clock inp out).validationResult.isDateValid
        = ((aiVR out).bind AIValidationResult.isDateValid).getD
            (detVerdict parse clock inp).isDateValid
    ∧ (validateExtractedDataFlow parse clock inp out).validationResult.isAmountValid
        = ((aiVR out).bind AIValidationResult.isAmountValid).getD
            (detVerdict parse clock inp).isAmountValid
    ∧ (validateExtractedDataFlow parse clock inp out).validationResult.isVendorValid
        = ((aiVR out).bind AIValidationResult.isVendorValid).getD
            (detVerdict parse clock inp).isVendorValid
    ∧ (validateExtractedDataFlow parse clock inp out).validationResult.suspicious
        = ((aiVR out).bind AIValidationResult.suspicious).getD
            (detVerdict parse clock inp).suspicious
    ∧ (validateExtractedDataFlow parse clock inp out).validationResult.reasons
        = (match (aiVR out).bind AIValidationResult.reasons with
            | some rs => if rs.isEmpty then (detVerdict parse clock inp).reasons else rs
            | none => (detVerdict parse clock inp).reasons)
    ∧ (validateExtractedDataFlow parse clock inp out).summary
        = (match out.bind AIOutput.summary with
            | some s =>
              if s = "" then
                mkSummary (validateExtractedDataFlow parse clock inp out).validationResult.suspicious
                  (validateExtractedDataFlow parse clock inp out).validationResult.reasons
              else s
            | none =>
              mkSummary (validateExtractedDataFlow parse clock inp out).validationResult.suspicious
                (validateExtractedDataFlow parse clock inp out).validationResult.reasons) := by
  rcases out with _ | ⟨vr, sum⟩
  · simp [validateExtractedDataFlow, aiVR]
  · rcases vr with _ | avr
    · simp [validateExtractedDataFlow, aiVR]
    · simp [validateExtractedDataFlow, aiVR]

/-- C2 counterexample: the deterministic verdict is suspicious because of a
negative amount; the LLM supplies only suspicious=false and no summary.
The claimed merge policy would fall back to the deterministic summary
(the suspicious sentence), but the code rebuilds the fallback summary
from the merged verdict, whose suspicious flag the LLM overrode, and so
returns the valid sentence instead. -/
theorem validateFlow_summaryMergeCex :
    (validateExtractedDataFlow parse0 clock0 inpBadAmount (some aiSusOverride)).summary
        = "The extracted data appears to be valid."
    ∧ specPreferredSummary (some aiSusOverride)
        (mkSummary (detVerdict parse0 clock0 inpBadAmount).suspicious
          (detVerdict parse0 clock0 inpBadAmount).reasons)
        = "The extracted data is suspicious. Reasons: The amount is invalid (either negative or unreasonably large)."
    ∧ ("The extracted data appears to be valid."
        ≠ "The extracted data is suspicious. Reasons: The amount is invalid (either negative or unreasonably large).") := by
  refine ⟨by decide, by decide, by decide⟩

/-- C8 (amended): normalization defaults quantity to 1 when absent, passes
unitPrice/totalPrice through unchanged, and the filter keeps an item
exactly when it has a non-empty description or a present, non-zero
totalPrice (JavaScript truthiness: a present 0, like an empty
description, fails the filter); the item list is the filtered map. -/
theorem itemNormalization_truthy (raw : RawInvoiceItem) :
    (normalizeItem raw).quantity = raw.quantity.getD 1
    ∧ (normalizeItem raw).unitPrice = raw.unitPrice
    ∧ (normalizeItem raw).totalPrice = raw.totalPrice
    ∧ (keepItem (normalizeItem raw) = true
        ↔ ((∃ s, raw.description = some s ∧ s ≠ "")
            ∨ (∃ q, raw.totalPrice = some q ∧ q ≠ 0)))
    ∧ (∀ (l : List RawInvoiceItem) (i : InvoiceItem),
        i ∈ normalizeItems (some l)
          ↔ ∃ r, r ∈ l ∧ normalizeItem r = i ∧ keepItem i = true) := by
  refine ⟨rfl, rfl, rfl, ?_, ?_⟩
  · rcases raw with ⟨d, q, u, t⟩
    rcases d with _ | s <;> rcases t with _ | p <;>
      simp [normalizeItem, keepItem, jsTruthyStr, jsTruthyNum] <;>
      by_cases hs : s = "" <;> simp [hs]
  · intro l i
    simp only [normalizeItems, List.mem_filter, List.mem_map]
    constructor
    · rintro ⟨⟨r, hr, hiEq⟩, hkeep⟩
      exact ⟨r, hr, hiEq, hiEq ▸ hkeep⟩
    · rintro ⟨r, hr, hiEq, hkeep⟩
      exact ⟨⟨r, hr, hiEq⟩, hkeep⟩

/-- C8 counterexample: an item with no description and a present totalPrice
of 0 is dropped by the filter, although the claim says a present zero
counts as present and the item should be kept. -/
theorem itemNormalization_zeroTotalCex :
    normalizeItems (some [⟨none, none, none, some 0⟩]) = [] := by
  decide

/-- C7 (amended): when extraction returns a result missing at least one of
date, amount, vendor, the upload returns the partial extraction, a null
verdict, and the error string made of the fixed prefix naming all three
core fields followed by the enumeration of exactly the missing ones, in
the order Date, Amount, Vendor, joined by comma-space — except that the
trailing two-character trim leaves a missing vendor named only "Vend". -/
theorem processUpload_missingFieldsMessage (parse : String → Option Int)
    (clock : Clock) (extractCall : String → Except String (Option ExtractedData))
    (aiValidate : ValidateInput → Except String (Option AIOutput))
    (uri : String) (ed : ExtractedData)
    (h1 : jsStartsWith uri "data:image/" = true)
    (h2 : extractCall uri = Except.ok (some ed))
    (h3 : (dateMissing ed || amountMissing ed || vendorMissing ed) = true) :
    processInvoiceUpload parse clock extractCall aiValidate (some uri)
      = ⟨some ed, none,
          some (coreFieldsMsg ++ "Missing: " ++ jsJoin ", " (missingNames ed))⟩ := by
  simp only [processInvoiceUpload, h1, h2, if_true]
  cases hd : dateMissing ed <;> cases ha : amountMissing ed <;> cases hv : vendorMissing ed <;>
      simp [hd, ha, hv] at h3 ⊢ <;>
      simp [missingListMsg, missingNames, hd, ha, hv] <;>
      decide

/-- Witness for processUpload_missingFieldsMessage at the amount-missing
scenario. -/
theorem processUpload_missingFieldsMessage_w :
    processInvoiceUpload parse0 clock0 extractFix aiValidateNone
        (some "data:image/png;base64,AAAA")
      = ⟨some edMissingAmount, none,
          some (coreFieldsMsg ++ "Missing: " ++ jsJoin ", " (missingNames edMissingAmount))⟩ :=
  processUpload_missingFieldsMessage parse0 clock0 extractFix aiValidateNone
    "data:image/png;base64,AAAA" edMissingAmount (by decide) rfl (by decide)

/-- C7 counterexample: with only the amount missing, the error string still
contains "Date" and "Vendor" (inside its fixed prefix), although the
claim says no non-missing field name appears. -/
theorem processUpload_missingFieldsCex :
    processInvoiceUpload parse0 clock0 extractFix aiValidateNone
        (some "data:image/png;base64,AAAA")
      = ⟨some edMissingAmount, none,
          some "AI could not extract all required core fields (Date, Amount, Vendor). Missing: Amount"⟩
    ∧ dateMissing edMissingAmount = false
    ∧ vendorMissing edMissingAmount = false
    ∧ strOccurs
        "AI could not extract all required core fields (Date, Amount, Vendor). Missing: Amount"
        "Date" = true
    ∧ strOccurs
        "AI could not extract all required core fields (Date, Amount, Vendor). Missing: Amount"
        "Vendor" = true := by
  refine ⟨by decide, by decide, by decide, by decide, by decide⟩

/-- A truthy optional string is present. -/
theorem truthy_isSome (s : Option String) (h : jsTruthyStr s = true) :
    s.isSome = true := by
  cases s
  · simp [jsTruthyStr] at h
  · rfl

/-- C10: processInvoiceUpload omits the error key exactly when extraction
and validation results are both non-null; when the error key is absent
all three core fields are present in the extraction; and a null
validation result always comes with an error string. -/
theorem processUpload_errorPresence (parse : String → Option Int) (clock : Clock)
    (extractCall : String → Except String (Option ExtractedData))
    (aiValidate : ValidateInput → Except String (Option AIOutput))
    (photoDataUri : Option String) :
    ((processInvoiceUpload parse clock extractCall aiValidate photoDataUri).error = none
      ↔ ((processInvoiceUpload parse clock extractCall aiValidate photoDataUri).extractedData.isSome = true
          ∧ (processInvoiceUpload parse clock extractCall aiValidate photoDataUri).validationResult.isSome = true))
    ∧ ((processInvoiceUpload parse clock extractCall aiValidate photoDataUri).error = none
        → ∃ ed, (processInvoiceUpload parse clock extractCall aiValidate photoDataUri).extractedData = some ed
            ∧ ed.date.isSome = true ∧ ed.amount.isSome = true ∧ ed.vendor.isSome = true)
    ∧ ((processInvoiceUpload parse clock extractCall aiValidate photoDataUri).validationResult = none
        → (processInvoiceUpload parse clock extractCall aiValidate photoDataUri).error.isSome = true) := by
  rcases photoDataUri with _ | uri
  · simp [processInvoiceUpload]
  · by_cases h1 : jsStartsWith uri "data:image/" = true
    · rcases he : extractCall uri with e | edOpt
      · simp [processInvoiceUpload, h1, he]
      · rcases edOpt with _ | ed
        · simp [processInvoiceUpload, h1, he]
        · by_cases hm : (dateMissing ed || amountMissing ed || vendorMissing ed) = true
          · simp [processInvoiceUpload, h1, he, hm]
          · rcases hva : aiValidate ⟨ed.date.getD "", ed.amount.getD 0, ed.vendor.getD ""⟩
              with e | aiOut
            · simp [processInvoiceUpload, h1, he, hm, hva]
            · have hflags : dateMissing ed = false ∧ amountMissing ed = false
                  ∧ vendorMissing ed = false := by
                simpa [not_or, and_assoc] using hm
              have hdate : ed.date.isSome = true := by
                refine truthy_isSome _ ?_
                have := hflags.1
                simpa [dateMissing] using this
              have hvendor : ed.vendor.isSome = true := by
                refine truthy_isSome _ ?_
                have := hflags.2.2
                simpa [vendorMissing] using this
              have hamount : ed.amount.isSome = true := by
                have := hflags.2.1
                simp only [amountMissing, Option.isNone_eq_false_iff] at this
                exact this
              simp [processInvoiceUpload, h1, he, hm, hva, hdate, hamount, hvendor]
    · simp [processInvoiceUpload, h1]

/-- C1: every successful saveInvoice call appends exactly one document to
the invoices collection; its userId key is the acting user id no matter
what userId the input record carried; createdAt and updatedAt are both
the server clock instant; and the generated id is the one returned. -/
theorem saveInvoice_success_contract (dbAvailable : Bool) (store : Store)
    (invoiceData : SaveRecord) (userId : String)
    (h : (saveInvoice dbAvailable store invoiceData userId).1.success = true) :
    ∃ doc : StoredInvoice,
      (saveInvoice dbAvailable store invoiceData userId).2.invoices
          = store.invoices ++ [doc]
      ∧ doc.record.userId = some userId
      ∧ doc.createdAt = store.serverTime
      ∧ doc.updatedAt = doc.createdAt
      ∧ (saveInvoice dbAvailable store invoiceData userId).1.invoiceId = some doc.id
      ∧ (saveInvoice dbAvailable store invoiceData userId).1.error = none := by
  by_cases hu : userId = ""
  · simp [saveInvoice, hu] at h
  · cases hdb : dbAvailable
    · simp [saveInvoice, hu, hdb] at h
    · cases hs : schemaErrorMsg invoiceData with
      | some e => simp [saveInvoice, hu, hdb, hs] at h
      | none =>
        refine ⟨⟨{ invoiceData with userId := some userId },
            store.serverTime, store.serverTime, genId store.nextId⟩, ?_, rfl, rfl, rfl, ?_, ?_⟩
          <;> simp [saveInvoice, hu, hdb, hs]

/-- Witness for saveInvoice_success_contract at a concrete record carrying
a stray userId. -/
theorem saveInvoice_success_contract_w :
    ∃ doc : StoredInvoice,
      (saveInvoice true store0 rec0 "user1").2.invoices = store0.invoices ++ [doc]
      ∧ doc.record.userId = some "user1"
      ∧ doc.createdAt = store0.serverTime
      ∧ doc.updatedAt = doc.createdAt
      ∧ (saveInvoice true store0 rec0 "user1").1.invoiceId = some doc.id
      ∧ (saveInvoice true store0 rec0 "user1").1.error = none :=
  saveInvoice_success_contract true store0 rec0 "user1" (by decide)

/-- C9: calling saveInvoice with an empty acting user id fails with the
fixed missing-identity error and leaves the store untouched; that error
string differs from the store-unavailable error and from every possible
schema-validation error string. -/
theorem saveInvoice_missingIdentity (dbAvailable : Bool) (store : Store)
    (invoiceData : SaveRecord) :
    saveInvoice dbAvailable store invoiceData ""
        = (⟨false, none, some missingIdentityMsg⟩, store)
    ∧ missingIdentityMsg ≠ dbUnavailableMsg
    ∧ (∀ r : SaveRecord, schemaErrorMsg r ≠ some missingIdentityMsg) := by
  refine ⟨rfl, by decide, ?_⟩
  intro r hEq
  rw [schemaErrorMsg] at hEq
  by_cases hv : 1 ≤ r.vendor.length <;>
    by_cases hc : (r.category = "gelir" ∨ r.category = "gider") <;>
    simp only [schemaIssues, hv, hc, if_true, if_false, List.nil_append,
      List.append_nil, List.cons_append, jsJoin] at hEq
  · exact Option.noConfusion hEq
  · have hlen := congrArg String.length (Option.some.inj hEq)
    simp only [String.length_append] at hlen
    have h1 : ("category: Invalid enum value. Expected gelir or gider, received ").length
        = 64 := by decide
    have h2 : missingIdentityMsg.length = 56 := by decide
    omega
  · have := Option.some.inj hEq
    exact absurd this (by decide)
  · have hlen := congrArg String.length (Option.some.inj hEq)
    simp only [String.length_append] at hlen
    have h2 : missingIdentityMsg.length = 56 := by decide
    have h3 : ("vendor: Vendor name is required").length = 31 := by decide
    have h4 : (", ").length = 2 := by decide
    have h5 : ("category: Invalid enum value. Expected gelir or gider, received ").length
        = 64 := by decide
    omega

end FaturaScan
